import Mathlib

/-!
Shallow embedding of the dbdm data-access layer (src/dist/mjs/database.d.ts,
transpiled body of `database.ts`): the predicate-to-query compiler
`buildWhereClause` and the `DBClient` facade operations (`connect`,
`ensureConnected`, `createTable`, `find`, `findOne`, `create`, `update`,
`delete`, `close`).

Modelling choices, all taken from the JavaScript source:
* JS runtime values appearing in conditions are modelled by `JSValue`
  (scalar / array / plain object); one nesting level suffices for every
  operation in the source.
* JS exception control flow (`try`/`catch`/`throw`) is modelled with
  `Except String`; a `catch` block that rethrows a wrapped `DatabaseError`
  becomes `wrapErr`.
* The SQLite driver (an external collaborator, `sqlite`/`sqlite3` npm
  packages, not part of this repository) is a parameter: a `Driver σ`
  record with `run`/`all`/`get` over an abstract connection state `σ`.
* The uuid generator (external collaborator `uuid.v4`) is modelled by an
  explicit `freshId` argument to `create`.
-/

namespace Dbdm

/-- Scalar JS values that can be stored in a row or bound as a statement
parameter: strings, numbers (modelled as `Int`), booleans and `null`. -/
inductive Scalar where
  | str (s : String)
  | num (n : Int)
  | bool (b : Bool)
  | null
deriving DecidableEq

/-- JS truthiness of a scalar: `""`, `0`, `false` and `null` are falsy. -/
def jsTruthy : Scalar → Bool
  | Scalar.str s => !(s = "")
  | Scalar.num n => !(n = 0)
  | Scalar.bool b => b
  | Scalar.null => false

/-- A JS value as it may appear as the value of a condition entry:
a scalar, an array of scalars, or a plain object (operator mapping) whose
entries are kept in insertion order. -/
inductive JSValue where
  | scalar (s : Scalar)
  | arr (xs : List Scalar)
  | obj (entries : List (String × Scalar))
deriving DecidableEq

/-- A condition mapping (`where` argument) in insertion order. -/
def Cond : Type := List (String × JSValue)

/-- A row returned by the driver: a mapping from column name to scalar. -/
def Row : Type := List (String × Scalar)

/-- JS `Object.entries` applied to an array yields the decimal indices as
string keys, in order: `Object.entries([a, b]) = [["0", a], ["1", b]]`. -/
def entriesOfArray (xs : List Scalar) : List (String × Scalar) :=
  xs.enum.map (fun p => (toString p.1, p.2))

/-- The operator-to-symbol table of the `switch` in `buildWhereClause`:
gt, lt, gte, lte, ne; every other operator key falls to the `default`
branch which throws. -/
def opSymbol : String → Option String
  | "gt" => some ">"
  | "lt" => some "<"
  | "gte" => some ">="
  | "lte" => some "<="
  | "ne" => some "!="
  | _ => none

/-- The inner `Object.entries(value).forEach` loop of `buildWhereClause`
for an object-typed condition value: for each operator entry in order,
push one fragment and one parameter, or throw
`DatabaseError("Unknown operator: " + operator)` on an operator outside
the closed set. -/
def compileOperators (key : String) :
    List (String × Scalar) → Except String (List String × List Scalar)
  | [] => Except.ok ([], [])
  | (op, v) :: rest =>
    match opSymbol op with
    | some sym =>
      match compileOperators key rest with
      | Except.ok (cs, ps) =>
        Except.ok ((key ++ " " ++ sym ++ " ?") :: cs, v :: ps)
      | Except.error e => Except.error e
    | none => Except.error ("Unknown operator: " ++ op)

/-- One iteration of the outer `Object.entries(where).forEach` loop of
`buildWhereClause`. The source tests
`typeof value === 'object' && value !== null` first; in JavaScript this
test is also true for arrays, so an array value reaches the operator
branch through `Object.entries` (index keys) and the subsequent
`Array.isArray(value)` branch (the `IN (...)` fragment) is unreachable.
Scalars (including `null`, for which the first test fails because of the
`value !== null` conjunct and `Array.isArray` is false) take the final
equality branch. -/
def compileEntry (key : String) : JSValue → Except String (List String × List Scalar)
  | JSValue.obj entries => compileOperators key entries
  | JSValue.arr xs => compileOperators key (entriesOfArray xs)
  | JSValue.scalar s => Except.ok ([key ++ " = ?"], [s])

/-- The full outer loop of `buildWhereClause`: fragments and parameters of
each entry are accumulated in insertion order; a throw from any entry
aborts the whole compilation. -/
def buildWhereAux : List (String × JSValue) → Except String (List String × List Scalar)
  | [] => Except.ok ([], [])
  | (key, v) :: rest =>
    match compileEntry key v with
    | Except.error e => Except.error e
    | Except.ok (cs, ps) =>
      match buildWhereAux rest with
      | Except.error e => Except.error e
      | Except.ok (cs2, ps2) => Except.ok (cs ++ cs2, ps ++ ps2)

/-- The result of `buildWhereClause`: the clause text and the positional
parameter sequence. -/
structure WhereClause where
  clause : String
  params : List Scalar
deriving DecidableEq

/-- The private method `buildWhereClause` of `DBClient`: compiles a
condition mapping into `WHERE <frag1> AND <frag2> ...` plus parameters,
or the empty string when no fragment was produced. -/
def buildWhereClause (w : List (String × JSValue)) : Except String WhereClause :=
  match buildWhereAux w with
  | Except.error e => Except.error e
  | Except.ok (conds, ps) =>
    Except.ok ⟨if conds.length > 0 then "WHERE " ++ String.intercalate " AND " conds else "", ps⟩

/-- The clause text alone (errors propagated), used to state that the text
depends only on the shape of the condition, not on its scalar values. -/
def clauseTextOf (w : List (String × JSValue)) : Except String String :=
  match buildWhereClause w with
  | Except.error e => Except.error e
  | Except.ok wc => Except.ok wc.clause

/-- The injected storage driver (spec §6, the `sqlite` npm wrapper over
`sqlite3`): `run` executes a statement and reports an optional
affected-row count (`result.changes` may be absent), `all` returns all
matching rows, `get` returns the first matching row or nothing. The
connection state is an abstract type `σ` threaded through each call. -/
structure Driver (σ : Type) where
  run : σ → String → List Scalar → Except String (σ × Option Nat)
  all : σ → String → List Scalar → Except String (σ × List Row)
  get : σ → String → List Scalar → Except String (σ × Option Row)

/-- The `DBClient` instance state: the private nullable field `db`. -/
structure DBClient (σ : Type) where
  db : Option σ

/-- The `options` argument of `find`/`findOne`. The `where` field is named
`whereCond` because `where` is reserved in Lean; absent fields are `none`
(`where` itself defaults to the empty mapping in the source). -/
structure QueryOptions where
  whereCond : List (String × JSValue) := []
  limit : Option Int := none
  offset : Option Int := none
  orderBy : Option String := none

/-- The message of the `DatabaseError` thrown by `ensureConnected`. -/
def notConnectedMsg : String := "Database not connected. Call connect() first."

/-- The private method `ensureConnected`: returns the handle or throws
when the `db` field is null. -/
def ensureConnected {σ : Type} (c : DBClient σ) : Except String σ :=
  match c.db with
  | none => Except.error notConnectedMsg
  | some db => Except.ok db

/-- A `catch` block that rethrows `DatabaseError(head + error.message)`:
errors produced inside the corresponding `try` block get `head` glued in
front; successful results pass through. -/
def wrapErr {α : Type} (head : String) : Except String α → Except String α
  | Except.error m => Except.error (head ++ m)
  | Except.ok a => Except.ok a

/-- The method `connect` on a successful `open`: assigns the opened handle
to `this.db`. A failed `open` instead rejects with a wrapped
`DatabaseError` and leaves `db` unchanged; only the success path is
needed here. -/
def connect {σ : Type} (_c : DBClient σ) (h : σ) : DBClient σ := ⟨some h⟩

/-- The method `close`: sets `this.db` to null (closing the underlying
handle is the external driver's business). -/
def close {σ : Type} (_c : DBClient σ) : DBClient σ := ⟨none⟩

/-- The method `createTable`: builds
`CREATE TABLE IF NOT EXISTS <table> (<col> <type>, ...)` in mapping order
and runs it; driver errors are wrapped by the catch block. -/
def createTable {σ : Type} (D : Driver σ) (c : DBClient σ) (table : String)
    (columns : List (String × String)) : Except String (σ × List Row) :=
  match ensureConnected c with
  | Except.error e => Except.error e
  | Except.ok db =>
    wrapErr "Failed to create table: " (
      let defs := String.intercalate ", " (columns.map (fun kv => kv.1 ++ " " ++ kv.2))
      match D.run db ("CREATE TABLE IF NOT EXISTS " ++ table ++ " (" ++ defs ++ ")") [] with
      | Except.error e => Except.error e
      | Except.ok (db2, _) => Except.ok (db2, []))

/-- The method `find`: compiles the condition, assembles
`SELECT * FROM <table> <clause>` plus optional `ORDER BY`/`LIMIT`/`OFFSET`
pieces, and runs `db.all`; every error from the try block is wrapped. -/
def find {σ : Type} (D : Driver σ) (c : DBClient σ) (table : String)
    (opts : QueryOptions) : Except String (σ × List Row) :=
  match ensureConnected c with
  | Except.error e => Except.error e
  | Except.ok db =>
    wrapErr "Failed to find records: " (
      match buildWhereClause opts.whereCond with
      | Except.error e => Except.error e
      | Except.ok wc =>
        let q0 := "SELECT * FROM " ++ table ++ " " ++ wc.clause
        let q1 := match opts.orderBy with
          | some ob => q0 ++ " ORDER BY " ++ ob
          | none => q0
        let q2 := match opts.limit with
          | some n => q1 ++ " LIMIT " ++ toString n
          | none => q1
        let q3 := match opts.offset with
          | some n => q2 ++ " OFFSET " ++ toString n
          | none => q2
        D.all db q3 wc.params)

/-- The method `findOne`: like `find` but always appends ` LIMIT 1`
(after any `ORDER BY`), uses `db.get`, and turns an absent row into
`null` (`result || null`). -/
def findOne {σ : Type} (D : Driver σ) (c : DBClient σ) (table : String)
    (opts : QueryOptions) : Except String (σ × Option Row) :=
  match ensureConnected c with
  | Except.error e => Except.error e
  | Except.ok db =>
    wrapErr "Failed to find record: " (
      match buildWhereClause opts.whereCond with
      | Except.error e => Except.error e
      | Except.ok wc =>
        let q0 := "SELECT * FROM " ++ table ++ " " ++ wc.clause
        let q1 := match opts.orderBy with
          | some ob => q0 ++ " ORDER BY " ++ ob
          | none => q0
        match D.get db (q1 ++ " LIMIT 1") wc.params with
        | Except.error e => Except.error e
        | Except.ok (db2, r) => Except.ok (db2, r))

/-- JS lookup `data.id` restricted to the record's entries: the value at
the first matching key, if any. -/
def getKey : List (String × Scalar) → String → Option Scalar
  | [], _ => none
  | (k0, v0) :: rest, k => if k0 = k then some v0 else getKey rest k

/-- JS property assignment `data[k] = v`: overwrites in place when the key
exists (keeping its position), otherwise appends at the end (insertion
order). -/
def setKey : List (String × Scalar) → String → Scalar → List (String × Scalar)
  | [], k, v => [(k, v)]
  | (k0, v0) :: rest, k, v =>
    if k0 = k then (k0, v) :: rest else (k0, v0) :: setKey rest k v

/-- The guard `!data.id` in `create`: true when the `id` field is absent
or holds a falsy value (`0`, `false`, `""`, `null`). -/
def jsFalsyId (data : List (String × Scalar)) : Bool :=
  match getKey data "id" with
  | some v => !(jsTruthy v)
  | none => true

/-- The `if (!data.id) data.id = uuidv4()` step of `create`: the record
after the conditional assignment of the generated id. -/
def createAssignId (data : List (String × Scalar)) (freshId : String) :
    List (String × Scalar) :=
  if jsFalsyId data then setKey data "id" (Scalar.str freshId) else data

/-- The value `data.id` read back when `create` returns (always present
after `createAssignId`; `null` is an unreachable fallback). -/
def createIdOf (data : List (String × Scalar)) : Scalar :=
  match getKey data "id" with
  | some v => v
  | none => Scalar.null

/-- The INSERT statement template literal of `create`, with its exact
newlines and indentation. -/
def insertQuery (table : String) (keys : List String) : String :=
  "\n            INSERT INTO " ++ table ++ " (" ++ String.intercalate ", " keys ++
  ")\n            VALUES (" ++ String.intercalate ", " (keys.map (fun _ => "?")) ++
  ")\n        "

/-- The try block of `create`: conditional id assignment, INSERT, then the
post-insert consistency self-check through `this.findOne` (which sees the
driver state left by the INSERT), throwing
`DatabaseError('Failed to create record: Record not found after insertion')`
when the row does not come back. Returns the driver state, the (possibly
mutated) caller record, and `data.id`. -/
def createTry {σ : Type} (D : Driver σ) (db : σ) (table : String)
    (data : List (String × Scalar)) (freshId : String) :
    Except String (σ × List (String × Scalar) × Scalar) :=
  let data2 := createAssignId data freshId
  let idv := createIdOf data2
  match D.run db (insertQuery table (data2.map Prod.fst)) (data2.map Prod.snd) with
  | Except.error e => Except.error e
  | Except.ok (db2, _) =>
    match findOne D ⟨some db2⟩ table { whereCond := [("id", JSValue.scalar idv)] } with
    | Except.error e => Except.error e
    | Except.ok (db3, created) =>
      match created with
      | none => Except.error "Failed to create record: Record not found after insertion"
      | some _ => Except.ok (db3, data2, idv)

/-- The method `create`: `ensureConnected` outside the try block, then the
try body with its catch wrapping every error in
`Failed to create record: `. -/
def create {σ : Type} (D : Driver σ) (c : DBClient σ) (table : String)
    (data : List (String × Scalar)) (freshId : String) :
    Except String (σ × List (String × Scalar) × Scalar) :=
  match ensureConnected c with
  | Except.error e => Except.error e
  | Except.ok db => wrapErr "Failed to create record: " (createTry D db table data freshId)

/-- The method `update`: compiles the condition, builds
`UPDATE <table> SET <k1> = ?, ... <clause>` with the SET columns in the
record's mapping order, binds all record values followed by all WHERE
parameters, and returns `result.changes || 0`. -/
def update {σ : Type} (D : Driver σ) (c : DBClient σ) (table : String)
    (w : List (String × JSValue)) (data : List (String × Scalar)) :
    Except String (σ × Nat) :=
  match ensureConnected c with
  | Except.error e => Except.error e
  | Except.ok db =>
    wrapErr "Failed to update records: " (
      match buildWhereClause w with
      | Except.error e => Except.error e
      | Except.ok wc =>
        let setClause := String.intercalate ", " (data.map (fun kv => kv.1 ++ " = ?"))
        match D.run db ("UPDATE " ++ table ++ " SET " ++ setClause ++ " " ++ wc.clause)
            (data.map Prod.snd ++ wc.params) with
        | Except.error e => Except.error e
        | Except.ok (db2, ch) => Except.ok (db2, ch.getD 0))

/-- The method `delete`: compiles the condition; when the compiled clause
text is empty (`!clause`), throws
`DatabaseError('Delete operation requires where clause')` before building
any statement; otherwise runs `DELETE FROM <table> <clause>` and returns
`result.changes || 0`. The catch block wraps every try-block error in
`Failed to delete records: `. -/
def delete {σ : Type} (D : Driver σ) (c : DBClient σ) (table : String)
    (w : List (String × JSValue)) : Except String (σ × Nat) :=
  match ensureConnected c with
  | Except.error e => Except.error e
  | Except.ok db =>
    wrapErr "Failed to delete records: " (
      match buildWhereClause w with
      | Except.error e => Except.error e
      | Except.ok wc =>
        if wc.clause = "" then
          Except.error "Delete operation requires where clause"
        else
          match D.run db ("DELETE FROM " ++ table ++ " " ++ wc.clause) wc.params with
          | Except.error e => Except.error e
          | Except.ok (db2, ch) => Except.ok (db2, ch.getD 0))

/-- A driver over the trivial state whose statements succeed while every
lookup comes back empty: `run` reports zero affected rows, `all` no rows,
`get` no row. Models a legal collaborator per the driver interface. -/
def nullDriver : Driver Unit where
  run := fun _ _ _ => Except.ok ((), some 0)
  all := fun _ _ _ => Except.ok ((), [])
  get := fun _ _ _ => Except.ok ((), none)

/-- A driver over the trivial state whose statements succeed and whose
`get` always finds a row: `run` reports one affected row, `get` returns
an (empty) row object — truthy in JS. -/
def foundDriver : Driver Unit where
  run := fun _ _ _ => Except.ok ((), some 1)
  all := fun _ _ _ => Except.ok ((), [])
  get := fun _ _ _ => Except.ok ((), some [])

/-- The number of `?` characters in a string; on clause text whose column
names contain no `?`, this is exactly the number of statement
placeholders. -/
def countQ (s : String) : Nat := s.data.countP (fun ch => ch = '?')

/-- The shape of a condition value: everything about it except its scalar
payload — which constructor it uses, an array's length, an operator
object's key list. -/
inductive CondShape where
  | scalarShape
  | arrShape (n : Nat)
  | objShape (ops : List String)
deriving DecidableEq

/-- The shape of a `JSValue`. -/
def shapeOf : JSValue → CondShape
  | JSValue.scalar _ => CondShape.scalarShape
  | JSValue.arr xs => CondShape.arrShape xs.length
  | JSValue.obj entries => CondShape.objShape (entries.map Prod.fst)

example : buildWhereClause [("age", JSValue.obj [("gt", Scalar.num 5)])]
    = Except.ok ⟨"WHERE age > ?", [Scalar.num 5]⟩ := rfl

example : buildWhereClause [("a", JSValue.scalar (Scalar.num 1)), ("b", JSValue.scalar (Scalar.str "x"))]
    = Except.ok ⟨"WHERE a = ? AND b = ?", [Scalar.num 1, Scalar.str "x"]⟩ := rfl

example : delete nullDriver ⟨some ()⟩ "users" []
    = Except.error "Failed to delete records: Delete operation requires where clause" := rfl

example : find nullDriver (connect (close (connect (DBClient.mk none) ())) ()) "t" {}
    = Except.ok ((), []) := rfl

/-- Helper: on a scalar-only condition the outer loop yields one equality
fragment and one parameter per key, in insertion order. -/
theorem buildWhereAux_scalars (w : List (String × Scalar)) :
    buildWhereAux (w.map (fun kv => (kv.1, JSValue.scalar kv.2)))
      = Except.ok (w.map (fun kv => kv.1 ++ " = ?"), w.map Prod.snd) := by
  induction w with
  | nil => rfl
  | cons kv rest ih => simp [buildWhereAux, compileEntry, ih]

/-- C1 — evaluation of the code at the failing inputs: an array-valued
condition entry does not produce an `IN` fragment. A non-empty array
reaches the operator branch (in JS `typeof [] === 'object'`), where its
index key `"0"` is an unknown operator; an empty array contributes no
fragment and no parameter at all rather than `tags IN ()`. -/
theorem c1_array_condition_eval :
    buildWhereClause [("tags", JSValue.arr [Scalar.num 1, Scalar.num 2])]
      = Except.error "Unknown operator: 0"
    ∧ buildWhereClause [("tags", JSValue.arr [])] = Except.ok ⟨"", []⟩ :=
  ⟨rfl, rfl⟩

/-- C3 — counterexample: after `connect(); close()` the data operations do
fail, but calling `connect()` again on the very same instance makes them
succeed again (here `find` returns rows), so the instance does transition
back to Connected. -/
theorem c3_counterexample :
    find nullDriver (close (connect (DBClient.mk none) ())) "users" {}
      = Except.error notConnectedMsg
    ∧ find nullDriver (connect (close (connect (DBClient.mk none) ())) ()) "users" {}
      = Except.ok ((), []) :=
  ⟨rfl, rfl⟩

/-- C3 (amended): after `close()` every data operation on the instance
fails with the not-connected error, but `connect()` on the same instance
re-establishes the Connected state and data operations succeed again — a
fresh instance is not required. -/
theorem c3_amended :
    (∀ {σ : Type} (D : Driver σ) (c : DBClient σ) (t : String) (o : QueryOptions)
        (w : List (String × JSValue)) (cols : List (String × String))
        (data : List (String × Scalar)) (fid : String),
      createTable D (close c) t cols = Except.error notConnectedMsg
      ∧ find D (close c) t o = Except.error notConnectedMsg
      ∧ findOne D (close c) t o = Except.error notConnectedMsg
      ∧ create D (close c) t data fid = Except.error notConnectedMsg
      ∧ update D (close c) t w data = Except.error notConnectedMsg
      ∧ delete D (close c) t w = Except.error notConnectedMsg)
    ∧ (∀ {σ : Type} (c : DBClient σ) (h : σ),
      ensureConnected (connect (close c) h) = Except.ok h)
    ∧ (∀ (c : DBClient Unit) (t : String),
      find nullDriver (connect (close c) ()) t {} = Except.ok ((), [])) := by
  refine ⟨?_, ?_, ?_⟩
  · intro σ D c t o w cols data fid
    exact ⟨rfl, rfl, rfl, rfl, rfl, rfl⟩
  · intro σ c h
    rfl
  · intro c t
    rfl

/-- C5: a condition mapping with only scalar values compiles to one
`col = ?` fragment per key joined with `" AND "` after the `WHERE`
keyword, the parameters being the values in key-insertion order; the
empty mapping compiles to the empty clause string (no `WHERE` keyword)
with no parameters. -/
theorem c5_scalar_conditions (w : List (String × Scalar)) :
    buildWhereClause (w.map (fun kv => (kv.1, JSValue.scalar kv.2)))
      = Except.ok ⟨if w.isEmpty then "" else
          "WHERE " ++ String.intercalate " AND " (w.map (fun kv => kv.1 ++ " = ?")),
          w.map Prod.snd⟩ := by
  unfold buildWhereClause
  rw [buildWhereAux_scalars]
  cases w with
  | nil => rfl
  | cons kv rest => simp

/-- C7: in the Connected state, a `delete` whose condition compiles to the
empty clause fails — for every driver, so no DELETE statement reaches
storage and no mutation happens — with the (wrapped)
missing-where-clause error. -/
theorem c7_delete_empty_clause {σ : Type} (D : Driver σ) (db : σ) (t : String)
    (w : List (String × JSValue)) (ps : List Scalar)
    (h : buildWhereClause w = Except.ok ⟨"", ps⟩) :
    delete D ⟨some db⟩ t w
      = Except.error "Failed to delete records: Delete operation requires where clause" := by
  unfold delete ensureConnected
  simp [h, wrapErr]

/-- C7 witness: the empty condition mapping on a concrete connected
client. -/
theorem c7_delete_empty_clause_witness :
    delete nullDriver ⟨some ()⟩ "users" []
      = Except.error "Failed to delete records: Delete operation requires where clause" :=
  c7_delete_empty_clause nullDriver () "users" [] [] rfl

/-- C8: in the Connected state `update` issues exactly
`UPDATE <table> SET <k1> = ?, <k2> = ?, ... <clause>` with the SET
columns in the record's mapping order, binds exactly all record values in
mapping order followed by all WHERE parameters in clause order, and
returns the affected-row count the driver reports — `0` when the driver
reports zero or no count (zero matches), never an error. -/
theorem c8_update_statement {σ : Type} (D : Driver σ) (db db2 : σ) (t : String)
    (w : List (String × JSValue)) (data : List (String × Scalar))
    (cl : String) (ps : List Scalar) (ch : Option Nat)
    (hw : buildWhereClause w = Except.ok ⟨cl, ps⟩)
    (hrun : D.run db
        ("UPDATE " ++ t ++ " SET "
          ++ String.intercalate ", " (data.map (fun kv => kv.1 ++ " = ?")) ++ " " ++ cl)
        (data.map Prod.snd ++ ps) = Except.ok (db2, ch)) :
    update D ⟨some db⟩ t w data = Except.ok (db2, ch.getD 0) := by
  unfold update ensureConnected
  simp [hw, hrun, wrapErr]

/-- C8 witness: an update whose condition matches zero rows returns 0 and
no error. -/
theorem c8_update_statement_witness :
    update nullDriver ⟨some ()⟩ "users" [("id", JSValue.scalar (Scalar.str "x"))]
      [("age", Scalar.num 31)] = Except.ok ((), 0) :=
  c8_update_statement nullDriver () () "users" [("id", JSValue.scalar (Scalar.str "x"))]
    [("age", Scalar.num 31)] "WHERE id = ?" [Scalar.str "x"] (some 0) rfl rfl

/-- Helper: `countQ` distributes over string concatenation. -/
theorem countQ_append (a b : String) : countQ (a ++ b) = countQ a + countQ b := by
  simp [countQ, String.data_append, List.countP_append]

/-- Helper: `?`-count through the `String.intercalate` accumulator loop. -/
theorem countQ_intercalate_go (s : String) (as : List String) (acc : String) :
    countQ (String.intercalate.go acc s as)
      = countQ acc + (as.map countQ).sum + countQ s * as.length := by
  induction as generalizing acc with
  | nil => simp [String.intercalate.go]
  | cons a t ih =>
    simp [String.intercalate.go, ih, countQ_append]
    ring

/-- Helper: intercalating with a `?`-free separator leaves the total
`?`-count of the fragments. -/
theorem countQ_intercalate (s : String) (cs : List String) (hs : countQ s = 0) :
    countQ (String.intercalate s cs) = (cs.map countQ).sum := by
  cases cs with
  | nil => simp [String.intercalate, countQ]
  | cons a t => simp [String.intercalate, countQ_intercalate_go, hs, countQ_append]

/-- Helper: every symbol the operator table produces is `?`-free. -/
theorem countQ_opSymbol (op sym : String) (h : opSymbol op = some sym) :
    countQ sym = 0 := by
  unfold opSymbol at h
  split at h
  all_goals first
    | (injection h with h2; subst h2; rfl)
    | (cases h)

/-- Helper: a list mapping everything to 1 sums to the list's length. -/
theorem sum_map_ones {α : Type} (l : List α) (f : α → Nat)
    (h : ∀ x ∈ l, f x = 1) : (l.map f).sum = l.length := by
  induction l with
  | nil => rfl
  | cons a t ih =>
    simp [h a (List.mem_cons_self _ _), ih (fun x hx => h x (List.mem_cons_of_mem _ hx))]
    omega

/-- Helper: fragments and parameters from the operator loop come in equal
number, each fragment holding exactly one `?` when the column name holds
none. -/
theorem compileOperators_count (key : String) (entries : List (String × Scalar))
    (cs : List String) (ps : List Scalar) (hkey : countQ key = 0)
    (h : compileOperators key entries = Except.ok (cs, ps)) :
    cs.length = ps.length ∧ ∀ c ∈ cs, countQ c = 1 := by
  induction entries generalizing cs ps with
  | nil =>
    simp [compileOperators] at h
    obtain ⟨h1, h2⟩ := h
    subst h1
    subst h2
    simp
  | cons e rest ih =>
    obtain ⟨op, v⟩ := e
    simp only [compileOperators] at h
    cases hsym : opSymbol op with
    | none => rw [hsym] at h; cases h
    | some sym =>
      rw [hsym] at h
      cases hr : compileOperators key rest with
      | error e2 => rw [hr] at h; cases h
      | ok pr =>
        obtain ⟨cs2, ps2⟩ := pr
        rw [hr] at h
        simp at h
        obtain ⟨h1, h2⟩ := h
        subst h1
        subst h2
        obtain ⟨ihl, ihc⟩ := ih cs2 ps2 hr
        refine ⟨by simp [ihl], ?_⟩
        intro c hc
        rcases List.mem_cons.mp hc with hc | hc
        · subst hc
          simp [countQ_append, hkey, countQ_opSymbol op sym hsym]
          rfl
        · exact ihc c hc

/-- Helper: fragment/parameter counting for a single condition entry. -/
theorem compileEntry_count (key : String) (v : JSValue)
    (cs : List String) (ps : List Scalar) (hkey : countQ key = 0)
    (h : compileEntry key v = Except.ok (cs, ps)) :
    cs.length = ps.length ∧ ∀ c ∈ cs, countQ c = 1 := by
  cases v with
  | scalar s =>
    simp [compileEntry] at h
    obtain ⟨h1, h2⟩ := h
    subst h1
    subst h2
    refine ⟨rfl, ?_⟩
    intro c hc
    simp at hc
    subst hc
    simp [countQ_append, hkey]
    rfl
  | arr xs => exact compileOperators_count key (entriesOfArray xs) cs ps hkey h
  | obj entries => exact compileOperators_count key entries cs ps hkey h

/-- Helper: fragment/parameter counting through the whole outer loop. -/
theorem buildWhereAux_count (w : List (String × JSValue))
    (cs : List String) (ps : List Scalar)
    (hkeys : ∀ e ∈ w, countQ e.1 = 0)
    (h : buildWhereAux w = Except.ok (cs, ps)) :
    cs.length = ps.length ∧ ∀ c ∈ cs, countQ c = 1 := by
  induction w generalizing cs ps with
  | nil =>
    simp [buildWhereAux] at h
    obtain ⟨h1, h2⟩ := h
    subst h1
    subst h2
    simp
  | cons e rest ih =>
    obtain ⟨key, v⟩ := e
    simp only [buildWhereAux] at h
    cases he : compileEntry key v with
    | error e2 => rw [he] at h; cases h
    | ok pr1 =>
      obtain ⟨cs1, ps1⟩ := pr1
      rw [he] at h
      cases hr : buildWhereAux rest with
      | error e2 => rw [hr] at h; cases h
      | ok pr2 =>
        obtain ⟨cs2, ps2⟩ := pr2
        rw [hr] at h
        simp at h
        obtain ⟨h1, h2⟩ := h
        subst h1
        subst h2
        obtain ⟨el, ec⟩ := compileEntry_count key v cs1 ps1
          (hkeys (key, v) (List.mem_cons_self _ _)) he
        obtain ⟨rl, rc⟩ := ih cs2 ps2 (fun e hmem => hkeys e (List.mem_cons_of_mem _ hmem)) hr
        refine ⟨by simp [el, rl], ?_⟩
        intro c hc
        rcases List.mem_append.mp hc with hc | hc
        · exact ec c hc
        · exact rc c hc

/-- Helper: the outer loop is compositional — compiling a concatenation of
two condition mappings concatenates their fragments and their parameter
sequences, in insertion order. -/
theorem buildWhereAux_append (w1 w2 : List (String × JSValue))
    (cs1 cs2 : List String) (ps1 ps2 : List Scalar)
    (h1 : buildWhereAux w1 = Except.ok (cs1, ps1))
    (h2 : buildWhereAux w2 = Except.ok (cs2, ps2)) :
    buildWhereAux (w1 ++ w2) = Except.ok (cs1 ++ cs2, ps1 ++ ps2) := by
  induction w1 generalizing cs1 ps1 with
  | nil =>
    simp [buildWhereAux] at h1
    obtain ⟨ha, hb⟩ := h1
    subst ha
    subst hb
    simpa using h2
  | cons e rest ih =>
    obtain ⟨key, v⟩ := e
    simp only [buildWhereAux] at h1
    cases he : compileEntry key v with
    | error e2 => rw [he] at h1; cases h1
    | ok pr1 =>
      obtain ⟨csa, psa⟩ := pr1
      rw [he] at h1
      cases hr : buildWhereAux rest with
      | error e2 => rw [hr] at h1; cases h1
      | ok pr2 =>
        obtain ⟨csb, psb⟩ := pr2
        rw [hr] at h1
        simp at h1
        obtain ⟨ha, hb⟩ := h1
        subst ha
        subst hb
        have ih2 := ih csb psb hr
        simp only [List.cons_append, buildWhereAux, he, List.append_eq]
        rw [ih2]
        simp [List.append_assoc]

/-- C6: on every condition mapping (whose column names are themselves
`?`-free, so that every `?` in the clause text is a placeholder) on which
`buildWhereClause` succeeds, the number of `?` placeholders in the clause
text equals the length of the parameter sequence; and compilation is
compositional in insertion order — the fragments and the parameters of a
concatenated condition mapping are the concatenations, in order, of those
of its parts, so parameters line up with the fragments they belong to. -/
theorem c6_placeholder_invariant :
    (∀ (w : List (String × JSValue)) (wc : WhereClause),
      (∀ e ∈ w, countQ e.1 = 0) →
      buildWhereClause w = Except.ok wc →
      countQ wc.clause = wc.params.length)
    ∧ (∀ (w1 w2 : List (String × JSValue))
        (cs1 cs2 : List String) (ps1 ps2 : List Scalar),
      buildWhereAux w1 = Except.ok (cs1, ps1) →
      buildWhereAux w2 = Except.ok (cs2, ps2) →
      buildWhereAux (w1 ++ w2) = Except.ok (cs1 ++ cs2, ps1 ++ ps2)) := by
  refine ⟨?_, buildWhereAux_append⟩
  intro w wc hkeys h
  unfold buildWhereClause at h
  cases hr : buildWhereAux w with
  | error e2 => rw [hr] at h; cases h
  | ok pr =>
    obtain ⟨cs, ps⟩ := pr
    rw [hr] at h
    simp at h
    obtain ⟨cl, pl⟩ := buildWhereAux_count w cs ps hkeys hr
    subst h
    cases cs with
    | nil =>
      simp at cl
      simp [countQ, ← cl]
    | cons c0 ct =>
      simp only [List.length_cons, gt_iff_lt, Nat.succ_pos, if_pos]
      rw [countQ_append, countQ_intercalate " AND " (c0 :: ct) rfl]
      rw [sum_map_ones (c0 :: ct) countQ pl]
      simp [← cl]
      rfl

/-- C6 witness: a concrete mixed condition has two placeholders and two
parameters, and compiling a concatenation concatenates fragments and
parameters. -/
theorem c6_placeholder_invariant_witness :
    countQ "WHERE a = ? AND b > ?" = [Scalar.num 1, Scalar.num 2].length
    ∧ buildWhereAux
        ([("a", JSValue.scalar (Scalar.num 1))] ++ [("b", JSValue.obj [("gt", Scalar.num 2)])])
      = Except.ok (["a = ?"] ++ ["b > ?"], [Scalar.num 1] ++ [Scalar.num 2]) :=
  ⟨c6_placeholder_invariant.1
      [("a", JSValue.scalar (Scalar.num 1)), ("b", JSValue.obj [("gt", Scalar.num 2)])]
      ⟨"WHERE a = ? AND b > ?", [Scalar.num 1, Scalar.num 2]⟩ (by decide) rfl,
    c6_placeholder_invariant.2
      [("a", JSValue.scalar (Scalar.num 1))] [("b", JSValue.obj [("gt", Scalar.num 2)])]
      ["a = ?"] ["b > ?"] [Scalar.num 1] [Scalar.num 2] rfl rfl⟩

/-- Helper: the keys `Object.entries` gives an array are determined by its
length alone. -/
theorem entriesOfArray_keys (xs : List Scalar) :
    (entriesOfArray xs).map Prod.fst = (List.range xs.length).map toString := by
  unfold entriesOfArray
  rw [List.map_map, show (Prod.fst ∘ fun p : Nat × Scalar => (toString p.1, p.2))
      = (toString ∘ Prod.fst) from rfl]
  rw [← List.map_map, List.enum_map_fst]

/-- Helper: the operator loop's fragments (and its error, if any) depend
only on the operator names, not on the operator values. -/
theorem compileOperators_text (key : String) (e1 e2 : List (String × Scalar))
    (h : e1.map Prod.fst = e2.map Prod.fst) :
    Except.map Prod.fst (compileOperators key e1)
      = Except.map Prod.fst (compileOperators key e2) := by
  induction e1 generalizing e2 with
  | nil =>
    cases e2 with
    | nil => rfl
    | cons b t => simp at h
  | cons a t1 ih =>
    cases e2 with
    | nil => simp at h
    | cons b t2 =>
      obtain ⟨op1, v1⟩ := a
      obtain ⟨op2, v2⟩ := b
      simp at h
      obtain ⟨hop, ht⟩ := h
      subst hop
      have iht := ih t2 ht
      simp only [compileOperators]
      cases hs : opSymbol op1 with
      | none => rfl
      | some sym =>
        cases hr1 : compileOperators key t1 with
        | error e =>
          cases hr2 : compileOperators key t2 with
          | error e2m =>
            rw [hr1, hr2] at iht
            simp [Except.map] at iht
            simp [Except.map, iht]
          | ok pr2 =>
            rw [hr1, hr2] at iht
            simp [Except.map] at iht
        | ok pr1 =>
          cases hr2 : compileOperators key t2 with
          | error e2m =>
            rw [hr1, hr2] at iht
            simp [Except.map] at iht
          | ok pr2 =>
            obtain ⟨cs1, ps1⟩ := pr1
            obtain ⟨cs2, ps2⟩ := pr2
            rw [hr1, hr2] at iht
            simp [Except.map] at iht
            simp [Except.map, iht]

/-- Helper: a single entry's fragments (and its error, if any) depend only
on the entry's shape. -/
theorem compileEntry_text (key : String) (v1 v2 : JSValue)
    (h : shapeOf v1 = shapeOf v2) :
    Except.map Prod.fst (compileEntry key v1)
      = Except.map Prod.fst (compileEntry key v2) := by
  cases v1 with
  | scalar s1 =>
    cases v2 with
    | scalar s2 => rfl
    | arr ys => simp [shapeOf] at h
    | obj e2 => simp [shapeOf] at h
  | arr xs =>
    cases v2 with
    | scalar s2 => simp [shapeOf] at h
    | arr ys =>
      simp [shapeOf] at h
      refine compileOperators_text key _ _ ?_
      rw [entriesOfArray_keys, entriesOfArray_keys, h]
    | obj e2 => simp [shapeOf] at h
  | obj e1 =>
    cases v2 with
    | scalar s2 => simp [shapeOf] at h
    | arr ys => simp [shapeOf] at h
    | obj e2 =>
      simp [shapeOf] at h
      exact compileOperators_text key e1 e2 h

/-- Helper: the outer loop's fragment list (and its error, if any) depends
only on the keys and shapes of the condition mapping. -/
theorem buildWhereAux_text (w1 w2 : List (String × JSValue))
    (h : w1.map (fun kv => (kv.1, shapeOf kv.2)) = w2.map (fun kv => (kv.1, shapeOf kv.2))) :
    Except.map Prod.fst (buildWhereAux w1) = Except.map Prod.fst (buildWhereAux w2) := by
  induction w1 generalizing w2 with
  | nil =>
    cases w2 with
    | nil => rfl
    | cons b t => simp at h
  | cons a t1 ih =>
    cases w2 with
    | nil => simp at h
    | cons b t2 =>
      obtain ⟨k1, v1⟩ := a
      obtain ⟨k2, v2⟩ := b
      simp at h
      obtain ⟨⟨hk, hv⟩, ht⟩ := h
      subst hk
      have hent := compileEntry_text k1 v1 v2 hv
      have iht := ih t2 ht
      simp only [buildWhereAux]
      cases he1 : compileEntry k1 v1 with
      | error e =>
        cases he2 : compileEntry k1 v2 with
        | error e2m =>
          rw [he1, he2] at hent
          simp [Except.map] at hent
          simp [Except.map, hent]
        | ok pr2 =>
          rw [he1, he2] at hent
          simp [Except.map] at hent
      | ok pr1 =>
        cases he2 : compileEntry k1 v2 with
        | error e2m =>
          rw [he1, he2] at hent
          simp [Except.map] at hent
        | ok pr2 =>
          obtain ⟨csa, psa⟩ := pr1
          obtain ⟨csb, psb⟩ := pr2
          rw [he1, he2] at hent
          simp [Except.map] at hent
          cases hr1 : buildWhereAux t1 with
          | error e =>
            cases hr2 : buildWhereAux t2 with
            | error e2m =>
              rw [hr1, hr2] at iht
              simp [Except.map] at iht
              simp [Except.map, iht]
            | ok qr2 =>
              rw [hr1, hr2] at iht
              simp [Except.map] at iht
          | ok qr1 =>
            cases hr2 : buildWhereAux t2 with
            | error e2m =>
              rw [hr1, hr2] at iht
              simp [Except.map] at iht
            | ok qr2 =>
              obtain ⟨cst1, pst1⟩ := qr1
              obtain ⟨cst2, pst2⟩ := qr2
              rw [hr1, hr2] at iht
              simp [Except.map] at iht
              simp [Except.map, hent, iht]

/-- C9: the clause text never contains a condition value — two condition
mappings with the same keys and the same shapes (same nested operator
keys, same array lengths), differing only in their scalar values, compile
to identical clause text (and identical compilation errors); only the
parameter sequences can differ. -/
theorem c9_clause_value_independent (w1 w2 : List (String × JSValue))
    (h : w1.map (fun kv => (kv.1, shapeOf kv.2)) = w2.map (fun kv => (kv.1, shapeOf kv.2))) :
    clauseTextOf w1 = clauseTextOf w2 := by
  have htext := buildWhereAux_text w1 w2 h
  unfold clauseTextOf buildWhereClause
  cases hr1 : buildWhereAux w1 with
  | error e =>
    cases hr2 : buildWhereAux w2 with
    | error e2m =>
      rw [hr1, hr2] at htext
      simp [Except.map] at htext
      simp [htext]
    | ok qr2 =>
      rw [hr1, hr2] at htext
      simp [Except.map] at htext
  | ok qr1 =>
    cases hr2 : buildWhereAux w2 with
    | error e2m =>
      rw [hr1, hr2] at htext
      simp [Except.map] at htext
    | ok qr2 =>
      obtain ⟨cs1, ps1⟩ := qr1
      obtain ⟨cs2, ps2⟩ := qr2
      rw [hr1, hr2] at htext
      simp [Except.map] at htext
      simp [htext]

/-- C9 witness: two conditions of identical shape and different scalar
values yield the same clause text. -/
theorem c9_clause_value_independent_witness :
    clauseTextOf [("a", JSValue.scalar (Scalar.num 1)), ("age", JSValue.obj [("gt", Scalar.num 2)])]
      = clauseTextOf
          [("a", JSValue.scalar (Scalar.str "zz")), ("age", JSValue.obj [("gt", Scalar.num 999)])] :=
  c9_clause_value_independent
    [("a", JSValue.scalar (Scalar.num 1)), ("age", JSValue.obj [("gt", Scalar.num 2)])]
    [("a", JSValue.scalar (Scalar.str "zz")), ("age", JSValue.obj [("gt", Scalar.num 999)])]
    rfl

/-- C10: every error thrown inside a data operation's try block is
re-wrapped by that operation's catch block: `delete` with an empty
condition rejects with the doubled-prefix message
`Failed to delete records: Delete operation requires where clause`;
`create` whose post-insert lookup misses (here: under a driver whose
`get` finds nothing) rejects with
`Failed to create record: Failed to create record: Record not found after insertion`;
the catch block of `create` prepends its prefix to every try-block error;
and the not-connected check, performed before the try block, propagates
its message unwrapped. -/
theorem c10_error_wrapping :
    (∀ {σ : Type} (D : Driver σ) (db : σ) (t : String),
      delete D ⟨some db⟩ t []
        = Except.error "Failed to delete records: Delete operation requires where clause")
    ∧ (∀ (t : String) (data : List (String × Scalar)) (fid : String),
      create nullDriver ⟨some ()⟩ t data fid
        = Except.error
            "Failed to create record: Failed to create record: Record not found after insertion")
    ∧ (∀ {σ : Type} (D : Driver σ) (db : σ) (t : String)
        (data : List (String × Scalar)) (fid : String) (m : String),
      createTry D db t data fid = Except.error m →
      create D ⟨some db⟩ t data fid = Except.error ("Failed to create record: " ++ m))
    ∧ (∀ {σ : Type} (D : Driver σ) (t : String) (w : List (String × JSValue))
        (data : List (String × Scalar)) (fid : String),
      delete D (⟨none⟩ : DBClient σ) t w = Except.error notConnectedMsg
      ∧ create D (⟨none⟩ : DBClient σ) t data fid = Except.error notConnectedMsg) := by
  refine ⟨?_, ?_, ?_, ?_⟩
  · intro σ D db t
    rfl
  · intro t data fid
    rfl
  · intro σ D db t data fid m hm
    unfold create ensureConnected
    simp [hm, wrapErr]
  · intro σ D t w data fid
    exact ⟨rfl, rfl⟩

/-- Helper: string concatenation is associative (via the underlying
character lists). -/
theorem string_append_assoc (a b c : String) : a ++ b ++ c = a ++ (b ++ c) := by
  apply String.ext
  simp [String.data_append]

/-- Helper: reading back the key just written by a JS property assignment
yields the written value. -/
theorem getKey_setKey (l : List (String × Scalar)) (k : String) (v : Scalar) :
    getKey (setKey l k v) k = some v := by
  induction l with
  | nil => simp [setKey, getKey]
  | cons kv rest ih =>
    obtain ⟨k0, v0⟩ := kv
    by_cases hk : k0 = k
    · simp [setKey, getKey, hk]
    · simp [setKey, getKey, hk, ih]

/-- C2 — counterexample: a caller-supplied falsy id is silently coerced to
missing. With `data = {id: 0}` the guard `!data.id` fires, so `create`
overwrites `data.id` with the generated id and returns the generated id,
not the caller-supplied `0`. -/
theorem c2_counterexample :
    create foundDriver ⟨some ()⟩ "users" [("id", Scalar.num 0)] "generated-uuid"
      = Except.ok ((), [("id", Scalar.str "generated-uuid")], Scalar.str "generated-uuid")
    ∧ Scalar.str "generated-uuid" ≠ Scalar.num 0 :=
  ⟨rfl, by decide⟩

/-- C2 (amended): on a successful run, `create` assigns the generated id
into the caller's record exactly when the `id` field is absent or falsy
(`0`, `false`, `""`, `null` — coerced to missing by the `!data.id`
guard), leaves a truthy caller-supplied id untouched, mutates the
caller-visible record accordingly, and returns `data.id` after this step
— the generated id in the falsy/absent case, the caller-supplied value in
the truthy case. -/
theorem c2_amended {σ : Type} (D : Driver σ) (db db2 db3 : σ) (t fid : String)
    (data : List (String × Scalar)) (ch : Option Nat) (r : Row)
    (hrun : D.run db (insertQuery t ((createAssignId data fid).map Prod.fst))
        ((createAssignId data fid).map Prod.snd) = Except.ok (db2, ch))
    (hget : findOne D ⟨some db2⟩ t
        { whereCond := [("id", JSValue.scalar (createIdOf (createAssignId data fid)))] }
      = Except.ok (db3, some r)) :
    create D ⟨some db⟩ t data fid
      = Except.ok (db3, createAssignId data fid, createIdOf (createAssignId data fid))
    ∧ (jsFalsyId data = true →
        createIdOf (createAssignId data fid) = Scalar.str fid
        ∧ getKey (createAssignId data fid) "id" = some (Scalar.str fid))
    ∧ (jsFalsyId data = false → createAssignId data fid = data) := by
  refine ⟨?_, ?_, ?_⟩
  · unfold create ensureConnected createTry
    simp [hrun, hget, wrapErr]
  · intro hfalsy
    simp [createAssignId, hfalsy, createIdOf, getKey_setKey]
  · intro htruthy
    simp [createAssignId, htruthy]

/-- C2 witness for the amended theorem: a record without an id on a driver
whose statements succeed and whose lookup finds the row. -/
theorem c2_amended_witness :
    create foundDriver ⟨some ()⟩ "users" [("name", Scalar.str "a")] "u1"
      = Except.ok ((), [("name", Scalar.str "a"), ("id", Scalar.str "u1")], Scalar.str "u1") :=
  (c2_amended foundDriver () () () "users" "u1" [("name", Scalar.str "a")]
    (some 1) [] rfl rfl).1

/-- Helper: the operator loop on entries whose operators all lie in the
closed set produces one fragment and one parameter per entry, in order,
using the operator's symbol. -/
theorem compileOperators_known (key : String) (entries : List (String × Scalar))
    (h : ∀ e ∈ entries, (opSymbol e.1).isSome = true) :
    compileOperators key entries
      = Except.ok (entries.map (fun e => key ++ " " ++ ((opSymbol e.1).getD "") ++ " ?"),
          entries.map Prod.snd) := by
  induction entries with
  | nil => rfl
  | cons e rest ih =>
    obtain ⟨op, v⟩ := e
    obtain ⟨sym, hsym⟩ := Option.isSome_iff_exists.mp (h (op, v) (List.mem_cons_self _ _))
    simp only [compileOperators, hsym]
    rw [ih (fun e he => h e (List.mem_cons_of_mem _ he))]
    simp [hsym]

/-- Helper: the operator loop throws at the first operator outside the
closed set, naming it. -/
theorem compileOperators_unknown (key op : String) (v : Scalar)
    (pre rest : List (String × Scalar))
    (hpre : ∀ e ∈ pre, (opSymbol e.1).isSome = true)
    (hop : opSymbol op = none) :
    compileOperators key (pre ++ (op, v) :: rest)
      = Except.error ("Unknown operator: " ++ op) := by
  induction pre with
  | nil => simp [compileOperators, hop]
  | cons e p ih =>
    obtain ⟨op0, v0⟩ := e
    obtain ⟨sym, hsym⟩ := Option.isSome_iff_exists.mp (hpre (op0, v0) (List.mem_cons_self _ _))
    have ih2 := ih (fun e he => hpre e (List.mem_cons_of_mem _ he))
    simp only [List.cons_append, compileOperators, hsym]
    simp [ih2]

/-- C4: the operator table is exactly gt→`>`, lt→`<`, gte→`>=`, lte→`<=`,
ne→`!=` and is closed (every other key compiles to no symbol); an
operator-object condition entry with known operators emits one
`<column> <symbol> ?` fragment and one parameter per operator entry, in
the nested mapping's order; an entry containing an operator outside the
set makes compilation fail with `Unknown operator: <op>`; and with such a
condition `find` fails identically under every driver, so no statement
reaches storage. -/
theorem c4_operator_conditions :
    (opSymbol "gt" = some ">" ∧ opSymbol "lt" = some "<" ∧ opSymbol "gte" = some ">="
      ∧ opSymbol "lte" = some "<=" ∧ opSymbol "ne" = some "!=")
    ∧ (∀ op : String,
        op = "gt" ∨ op = "lt" ∨ op = "gte" ∨ op = "lte" ∨ op = "ne"
        ∨ opSymbol op = none)
    ∧ (∀ (key : String) (entries : List (String × Scalar)),
        (∀ e ∈ entries, (opSymbol e.1).isSome = true) →
        buildWhereClause [(key, JSValue.obj entries)]
          = Except.ok ⟨if entries.isEmpty then "" else
              "WHERE " ++ String.intercalate " AND "
                (entries.map (fun e => key ++ " " ++ ((opSymbol e.1).getD "") ++ " ?")),
              entries.map Prod.snd⟩)
    ∧ (∀ (key op : String) (v : Scalar) (pre rest : List (String × Scalar)),
        (∀ e ∈ pre, (opSymbol e.1).isSome = true) → opSymbol op = none →
        buildWhereClause [(key, JSValue.obj (pre ++ (op, v) :: rest))]
          = Except.error ("Unknown operator: " ++ op))
    ∧ (∀ {σ : Type} (D : Driver σ) (db : σ) (t key op : String) (v : Scalar),
        opSymbol op = none →
        find D ⟨some db⟩ t { whereCond := [(key, JSValue.obj [(op, v)])] }
          = Except.error ("Failed to find records: Unknown operator: " ++ op)) := by
  refine ⟨⟨rfl, rfl, rfl, rfl, rfl⟩, ?_, ?_, ?_, ?_⟩
  · intro op
    by_cases h1 : op = "gt"
    · exact Or.inl h1
    by_cases h2 : op = "lt"
    · exact Or.inr (Or.inl h2)
    by_cases h3 : op = "gte"
    · exact Or.inr (Or.inr (Or.inl h3))
    by_cases h4 : op = "lte"
    · exact Or.inr (Or.inr (Or.inr (Or.inl h4)))
    by_cases h5 : op = "ne"
    · exact Or.inr (Or.inr (Or.inr (Or.inr (Or.inl h5))))
    refine Or.inr (Or.inr (Or.inr (Or.inr (Or.inr ?_))))
    unfold opSymbol
    split <;> simp_all
  · intro key entries h
    cases entries with
    | nil => rfl
    | cons e rest =>
      have hc := compileOperators_known key (e :: rest) h
      simp only [buildWhereClause, buildWhereAux, compileEntry, hc, List.append_nil]
      simp
  · intro key op v pre rest hpre hop
    have hc := compileOperators_unknown key op v pre rest hpre hop
    simp only [buildWhereClause, buildWhereAux, compileEntry, hc]
  · intro σ D db t key op v hop
    unfold find ensureConnected
    simp [buildWhereClause, buildWhereAux, compileEntry, compileOperators, hop, wrapErr,
      ← string_append_assoc]

/-- C4 witness: a two-operator entry compiles to its two fragments and
parameters; an unknown operator `foo` aborts compilation with its name. -/
theorem c4_operator_conditions_witness :
    buildWhereClause [("age", JSValue.obj [("gt", Scalar.num 5), ("lte", Scalar.num 9)])]
      = Except.ok ⟨"WHERE age > ? AND age <= ?", [Scalar.num 5, Scalar.num 9]⟩
    ∧ buildWhereClause [("age", JSValue.obj [("foo", Scalar.num 1)])]
      = Except.error "Unknown operator: foo" :=
  ⟨c4_operator_conditions.2.2.1 "age" [("gt", Scalar.num 5), ("lte", Scalar.num 9)]
      (by decide),
    c4_operator_conditions.2.2.2.1 "age" "foo" (Scalar.num 1) [] [] (by decide) rfl⟩

/-- C10 witness: the catch-wrap conjunct applied to the concrete
verification-failure run of `create`. -/
theorem c10_error_wrapping_witness :
    create nullDriver ⟨some ()⟩ "users" [("name", Scalar.str "a")] "u1"
      = Except.error
          ("Failed to create record: "
            ++ "Failed to create record: Record not found after insertion") :=
  c10_error_wrapping.2.2.1 nullDriver () "users" [("name", Scalar.str "a")] "u1"
    "Failed to create record: Record not found after insertion" rfl

end Dbdm
